import Mathlib

/-!
Shallow embedding of `src/abstract_hardware_model.h` (GPGPU-Sim abstract
hardware model): the kernel work enumerator (`kernel_info_t`), the memory
space classifier (`memory_space_t`), the scalar instruction (`inst_t`) and
the warp instruction (`warp_inst_t`), together with theorems checking the
specification's claims against these definitions.

Modelling conventions:
- C++ `unsigned` values are `Nat`; where the source performs 32-bit unsigned
  arithmetic whose result can wrap, the reduction modulo `2^32` is written
  explicitly.
- Pointers (`function_info*`, function pointers, `ptx_thread_info*`,
  `const inst_t*`) are modelled as `Option Nat`: `none` is the null pointer
  and `some k` an abstract non-null pointer identity.
- Uninitialised members (not written by a constructor) are modelled as
  `Option` fields holding `none`, or as `Option`-valued array slots.
- `assert(...)`-guarded accessors return `Option` results: `none` models the
  aborted execution when the assertion fails.
- `do_atomic` is modelled as producing the trace of callback invocations it
  performs (the list of `(function, instruction, thread)` triples passed to
  the invoked callbacks, in loop order).
-/

/-- The constant 2^32, the modulus of C++ 32-bit `unsigned` arithmetic. -/
def U32 : Nat := 4294967296

/-- Source `struct dim3 { unsigned int x, y, z; }`. -/
structure dim3 where
  x : Nat
  y : Nat
  z : Nat
deriving DecidableEq, Repr

/-- Source `enum _memory_space_t` from the source, 13 tags. -/
inductive _memory_space_t where
  | undefined_space
  | reg_space
  | local_space
  | shared_space
  | param_space_unclassified
  | param_space_kernel
  | param_space_local
  | const_space
  | tex_space
  | surf_space
  | global_space
  | generic_space
  | instruction_space
deriving DecidableEq, Repr

/-- The integer value of each `_memory_space_t` enumerator
(`undefined_space=0` and the rest consecutive), used where the C++ code
compares enum values as integers. -/
def space_val : _memory_space_t → Nat
  | .undefined_space => 0
  | .reg_space => 1
  | .local_space => 2
  | .shared_space => 3
  | .param_space_unclassified => 4
  | .param_space_kernel => 5
  | .param_space_local => 6
  | .const_space => 7
  | .tex_space => 8
  | .surf_space => 9
  | .global_space => 10
  | .generic_space => 11
  | .instruction_space => 12

/-- Source `class memory_space_t`: a tag plus a bank index. -/
structure memory_space_t where
  m_type : _memory_space_t
  m_bank : Nat
deriving DecidableEq, Repr

namespace memory_space_t

/-- Source `memory_space_t()` default constructor. -/
def mk_default : memory_space_t := { m_type := .undefined_space, m_bank := 0 }

/-- Source `memory_space_t( const enum _memory_space_t &from )`. -/
def mk_from (from_ : _memory_space_t) : memory_space_t :=
  { m_type := from_, m_bank := 0 }

/-- Source `operator==`: `(m_bank == x.m_bank) && (m_type == x.m_type)`. -/
def beq_op (a x : memory_space_t) : Bool :=
  (a.m_bank == x.m_bank) && (space_val a.m_type == space_val x.m_type)

/-- Source `operator<`: compare the enum values of the tags, then the banks. -/
def lt_op (a x : memory_space_t) : Bool :=
  if space_val a.m_type < space_val x.m_type then true
  else if space_val a.m_type > space_val x.m_type then false
  else if a.m_bank < x.m_bank then true
  else false

/-- Source `set_bank( unsigned b )`. -/
def set_bank (a : memory_space_t) (b : Nat) : memory_space_t :=
  { a with m_bank := b }

/-- Source `get_bank()`. -/
def get_bank (a : memory_space_t) : Nat := a.m_bank

end memory_space_t

/-- Source `class kernel_info_t` state: kernel validity, entry point, grid/block
dimensions and the next unissued block and thread coordinates. -/
structure kernel_info_t where
  m_valid : Bool
  m_kernel_entry : Option Nat
  m_grid_dim : dim3
  m_block_dim : dim3
  m_next_cta : dim3
  m_next_tid : dim3
deriving DecidableEq, Repr

namespace kernel_info_t

/-- Source `kernel_info_t( dim3 gridDim, dim3 blockDim, function_info *entry )`:
binds the kernel and resets both enumeration cursors to the origin. -/
def mk_bound (gridDim blockDim : dim3) (entry : Option Nat) : kernel_info_t :=
  { m_valid := true
    m_kernel_entry := entry
    m_grid_dim := gridDim
    m_block_dim := blockDim
    m_next_cta := ⟨0, 0, 0⟩
    m_next_tid := ⟨0, 0, 0⟩ }

/-- Source `num_blocks()`: `m_grid_dim.x * m_grid_dim.y * m_grid_dim.z` computed in
32-bit unsigned arithmetic (left-associated, each product reduced mod 2^32)
before widening to `size_t`. -/
def num_blocks (k : kernel_info_t) : Nat :=
  (k.m_grid_dim.x * k.m_grid_dim.y % U32) * k.m_grid_dim.z % U32

/-- Source `threads_per_cta()`: `m_block_dim.x * m_block_dim.y * m_block_dim.z` in
32-bit unsigned arithmetic before widening to `size_t`. -/
def threads_per_cta (k : kernel_info_t) : Nat :=
  (k.m_block_dim.x * k.m_block_dim.y % U32) * k.m_block_dim.z % U32

/-- Source `no_more_ctas_to_run()`. -/
def no_more_ctas_to_run (k : kernel_info_t) : Bool :=
  (k.m_next_cta.x ≥ k.m_grid_dim.x) || (k.m_next_cta.y ≥ k.m_grid_dim.y) ||
    (k.m_next_cta.z ≥ k.m_grid_dim.z)

/-- Source `get_next_thread_id()`:
`m_next_tid.x + m_block_dim.x*m_next_tid.y + m_block_dim.x*m_block_dim.y*m_next_tid.z`
evaluated in 32-bit unsigned arithmetic (every `+` and `*` reduces mod 2^32). -/
def get_next_thread_id (k : kernel_info_t) : Nat :=
  ((k.m_next_tid.x + k.m_block_dim.x * k.m_next_tid.y % U32) % U32 +
    (k.m_block_dim.x * k.m_block_dim.y % U32) * k.m_next_tid.z % U32) % U32

/-- Source `more_threads_in_cta()` exactly as written in the source:
`m_next_tid.z < m_block_dim.z && m_next_tid.y < m_block_dim.y && m_next_tid.z < m_block_dim.x`
(note the third conjunct compares `z` against the x-bound). -/
def more_threads_in_cta (k : kernel_info_t) : Bool :=
  (k.m_next_tid.z < k.m_block_dim.z) && (k.m_next_tid.y < k.m_block_dim.y) &&
    (k.m_next_tid.z < k.m_block_dim.x)

/-- Modelled from the spec: the evidently intended predicate for
`more_threads_in_cta()` —
`next_tid.x < block_dim.x && next_tid.y < block_dim.y && next_tid.z < block_dim.z` —
which the source's literal comparison deviates from. -/
def more_threads_in_cta_intended (k : kernel_info_t) : Bool :=
  (k.m_next_tid.x < k.m_block_dim.x) && (k.m_next_tid.y < k.m_block_dim.y) &&
    (k.m_next_tid.z < k.m_block_dim.z)

end kernel_info_t

/-- Source `enum uarch_op_t`. -/
inductive uarch_op_t where
  | NO_OP
  | ALU_OP
  | SFU_OP
  | ALU_SFU_OP
  | LOAD_OP
  | STORE_OP
  | BRANCH_OP
  | BARRIER_OP
  | MEMORY_BARRIER_OP
deriving DecidableEq, Repr

/-- Source `enum _memory_op_t`. -/
inductive _memory_op_t where
  | no_memory_op
  | memory_load
  | memory_store
deriving DecidableEq, Repr

/-- Source `sizeof(unsigned)` on the platforms the simulator targets: 4 bytes. -/
def sizeof_unsigned : Nat := 4

/-- Source `memset(arr, 0, nbytes)` over a 4-element array of `unsigned`: element
`i` occupies bytes `[4*i, 4*i+4)`, so it is zeroed exactly when the write of
`nbytes` bytes covers it entirely (the byte counts used by the source, 4 and
16, never cover an element partially). -/
def memset4 (a : Fin 4 → Option Nat) (nbytes : Nat) : Fin 4 → Option Nat :=
  fun i => if (i.val + 1) * sizeof_unsigned ≤ nbytes then some 0 else a i

/-- Source `class inst_t`: one scalar instruction occurrence. Members the default
constructor leaves unwritten are `Option`-valued and hold `none`. -/
structure inst_t where
  m_decoded : Bool
  pc : Nat
  isize : Nat
  op : uarch_op_t
  memory_op : Option _memory_op_t
  out : Fin 4 → Option Nat
  in_regs : Fin 4 → Option Nat
  is_vectorin : Nat
  is_vectorout : Nat
  pred : Option Int
  ar1 : Option Int
  ar2 : Option Int
  arch_reg : Fin 8 → Int
  cycles : Nat
  data_size : Option Nat
  space : memory_space_t

/-- Source `inst_t()` default constructor: the placeholder instruction. Note the two
`memset` calls pass `sizeof(unsigned)` (4 bytes), not the size of the whole
4-element arrays (16 bytes); members never assigned stay `none`. -/
def inst_t_new : inst_t :=
  { m_decoded := false
    pc := U32 - 1
    isize := 0
    op := .NO_OP
    memory_op := none
    out := memset4 (fun _ => none) sizeof_unsigned
    in_regs := memset4 (fun _ => none) sizeof_unsigned
    is_vectorin := 0
    is_vectorout := 0
    pred := none
    ar1 := none
    ar2 := none
    arch_reg := fun _ => -1
    cycles := 0
    data_size := none
    space := memory_space_t.mk_default }

/-- Source constant `MAX_WARP_SIZE = 32`. -/
def MAX_WARP_SIZE : Nat := 32

/-- Source `struct dram_callback_t`: function pointer, instruction back-reference
and thread (execution context) back-reference, each possibly null. -/
structure dram_callback_t where
  function : Option Nat
  instruction : Option Nat
  thread : Option Nat
deriving DecidableEq, Repr

/-- Source `dram_callback_t()` default constructor: all three pointers null. -/
def dram_callback_t_new : dram_callback_t :=
  { function := none, instruction := none, thread := none }

/-- Source `struct per_thread_info`: per-lane callback, effective address and
cache-miss flag. -/
structure per_thread_info where
  callback : dram_callback_t
  memreqaddr : Nat
  cache_miss : Bool
deriving DecidableEq, Repr

/-- Source `per_thread_info()` default constructor. -/
def per_thread_info_new : per_thread_info :=
  { callback := dram_callback_t_new, memreqaddr := 0, cache_miss := false }

/-- Source `std::vector::resize(n)` with default-constructed fill: truncate to `n`
elements or extend with `d` up to `n` elements. -/
def vecResize {α : Type} (l : List α) (n : Nat) (d : α) : List α :=
  l.take n ++ List.replicate (n - l.length) d

/-- In-place update of the element at index `n` (no-op when out of range),
modelling `v[n].field = ...` on a `std::vector`. -/
def listModify {α : Type} : List α → Nat → (α → α) → List α
  | [], _, _ => []
  | a :: as, 0, f => f a :: as
  | a :: as, n + 1, f => a :: listModify as n f

/-- The SIMT state `class warp_inst_t` adds to `inst_t` (the inherited scalar
fields play no role in the warp-level claims and are omitted): warp size,
empty and atomic flags, warp id and issue cycle (unwritten before `issue`),
the 32-bit active mask, and the lazily allocated per-lane array with its
validity flag. -/
structure warp_inst_t where
  m_warp_size : Nat
  m_empty : Bool
  m_isatomic : Bool
  m_warp_id : Option Nat
  issue_cycle : Option Nat
  warp_active_mask : Fin 32 → Bool
  m_per_scalar_thread_valid : Bool
  m_per_scalar_thread : List per_thread_info

namespace warp_inst_t

/-- Source `warp_inst_t( unsigned warp_size )`: asserts `warp_size<=MAX_WARP_SIZE`
(`none` models the aborted construction); the `std::bitset` member
zero-initialises, the vector starts empty, `m_warp_id`/`issue_cycle` are
unwritten. -/
def mk_new (warp_size : Nat) : Option warp_inst_t :=
  if warp_size ≤ MAX_WARP_SIZE then
    some { m_warp_size := warp_size
           m_empty := true
           m_isatomic := false
           m_warp_id := none
           issue_cycle := none
           warp_active_mask := fun _ => false
           m_per_scalar_thread_valid := false
           m_per_scalar_thread := [] }
  else none

/-- Source `issue( mask, warp_id, cycle )`: for each lane `i < m_warp_size`, set
active bit `i` when bit `i` of `mask` is set (bits outside the loop range are
untouched); record warp id and cycle; clear the empty flag. -/
def issue (s : warp_inst_t) (mask : Nat) (warp_id : Nat) (cycle : Nat) :
    warp_inst_t :=
  { s with
    warp_active_mask := fun i =>
      if i.val < s.m_warp_size && mask.testBit i.val then true
      else s.warp_active_mask i
    m_warp_id := some warp_id
    issue_cycle := some cycle
    m_empty := false }

/-- Source `clear()`: sets `m_empty=true` and nothing else. -/
def clear (s : warp_inst_t) : warp_inst_t := { s with m_empty := true }

/-- Source `set_addr( n, addr )`: lazily allocate the per-lane array (resize to the
warp size) on first use, then store the lane's effective address. -/
def set_addr (s : warp_inst_t) (n : Nat) (addr : Nat) : warp_inst_t :=
  let s1 := if s.m_per_scalar_thread_valid then s
    else { s with
           m_per_scalar_thread :=
             vecResize s.m_per_scalar_thread s.m_warp_size per_thread_info_new
           m_per_scalar_thread_valid := true }
  { s1 with
    m_per_scalar_thread :=
      listModify s1.m_per_scalar_thread n (fun t => { t with memreqaddr := addr }) }

/-- Source `add_callback( lane_id, function, inst, thread )`: on first use allocate
the per-lane array and set `m_isatomic=true` (the atomic mark is written only
inside this allocation branch); then store the callback triple for the lane. -/
def add_callback (s : warp_inst_t) (lane_id : Nat) (function : Option Nat)
    (inst : Option Nat) (thread : Option Nat) : warp_inst_t :=
  let s1 := if s.m_per_scalar_thread_valid then s
    else { s with
           m_per_scalar_thread :=
             vecResize s.m_per_scalar_thread s.m_warp_size per_thread_info_new
           m_per_scalar_thread_valid := true
           m_isatomic := true }
  { s1 with
    m_per_scalar_thread :=
      listModify s1.m_per_scalar_thread lane_id
        (fun t => { t with
                    callback := { function := function, instruction := inst,
                                  thread := thread } }) }

/-- One recorded callback invocation of `do_atomic`: the `(function,
instruction, thread)` arguments of a `cb.function(cb.instruction, cb.thread)`
call. -/
def atomic_calls : List per_thread_info → List (Option Nat × Option Nat × Option Nat)
  | [] => []
  | t :: ts =>
    match t.callback.thread with
    | some _ =>
      (t.callback.function, t.callback.instruction, t.callback.thread) ::
        atomic_calls ts
    | none => atomic_calls ts

/-- Source `do_atomic()`: asserts `m_isatomic && !m_empty` (`none` models the
aborted run); iterates the per-lane array in order and, for each entry whose
`callback.thread` is non-null, invokes the callback — the returned list is
the trace of those invocations. -/
def do_atomic (s : warp_inst_t) :
    Option (List (Option Nat × Option Nat × Option Nat)) :=
  if s.m_isatomic && !s.m_empty then some (atomic_calls s.m_per_scalar_thread)
  else none

/-- Source `active( thread )`: `warp_active_mask.test(thread)`. -/
def active (s : warp_inst_t) (thread : Fin 32) : Bool :=
  s.warp_active_mask thread

/-- Source `empty()`. -/
def empty (s : warp_inst_t) : Bool := s.m_empty

/-- Source `warp_id()`: asserts `!m_empty`. -/
def warp_id (s : warp_inst_t) : Option Nat :=
  if s.m_empty then none else s.m_warp_id

/-- Source `has_callback( n )`:
`warp_active_mask[n] && m_per_scalar_thread_valid && (m_per_scalar_thread[n].callback.function!=NULL)`
— the `&&` short-circuit means the vector is only indexed when the validity
flag is set (and then it has `m_warp_size` entries). -/
def has_callback (s : warp_inst_t) (n : Fin 32) : Bool :=
  s.warp_active_mask n && s.m_per_scalar_thread_valid &&
    (match s.m_per_scalar_thread.get? n.val with
     | some t => t.callback.function.isSome
     | none => false)

/-- Source `get_addr( n )`: asserts `m_per_scalar_thread_valid` (`none` models the
aborted run), then reads the lane's effective address. -/
def get_addr (s : warp_inst_t) (n : Nat) : Option Nat :=
  if s.m_per_scalar_thread_valid then
    (s.m_per_scalar_thread.get? n).map (fun t => t.memreqaddr)
  else none

/-- Source `isatomic()`. -/
def isatomic (s : warp_inst_t) : Bool := s.m_isatomic

end warp_inst_t

/-! ## Auxiliary lemmas -/

/-- The constant `U32` equals 2^32. -/
theorem U32_eq : U32 = 2 ^ 32 := by norm_num [U32]

/-- The enum value map of `_memory_space_t` is injective (distinct tags have
distinct integer values). -/
theorem space_val_inj {t u : _memory_space_t} (h : space_val t = space_val u) :
    t = u := by
  cases t <;> cases u <;> simp_all [space_val]

/-- The update `listModify` preserves the length of the list. -/
theorem listModify_length {α : Type} (l : List α) (n : Nat) (f : α → α) :
    (listModify l n f).length = l.length := by
  induction l generalizing n with
  | nil => rfl
  | cons a as ih =>
    cases n with
    | zero => rfl
    | succ m => simp [listModify, ih]

/-- Reading back the index `listModify` wrote. -/
theorem listModify_get? {α : Type} (l : List α) (n : Nat) (f : α → α) :
    (listModify l n f).get? n = (l.get? n).map f := by
  induction l generalizing n with
  | nil => rfl
  | cons a as ih =>
    cases n with
    | zero => rfl
    | succ m => simpa [listModify] using ih m

/-- The resize `vecResize` produces a list of exactly the requested length. -/
theorem vecResize_length {α : Type} (l : List α) (n : Nat) (d : α) :
    (vecResize l n d).length = n := by
  simp [vecResize]
  omega

/-- The trace of `do_atomic`'s loop keeps exactly the entries with a non-null
thread back-reference, in order, projected to their callback triples. -/
theorem atomic_calls_eq (l : List per_thread_info) :
    warp_inst_t.atomic_calls l =
      (l.filter (fun t => t.callback.thread.isSome)).map
        (fun t => (t.callback.function, t.callback.instruction, t.callback.thread)) := by
  induction l with
  | nil => rfl
  | cons t ts ih =>
    cases h : t.callback.thread <;>
      simp [warp_inst_t.atomic_calls, h, ih, List.filter_cons]

/-! ## Claims -/

/-- C1, counterexample: on a warp instruction of width 1, `issue` with mask 1
then `clear()` leaves `empty()` true while `active(0)` is still true — `clear`
does not reset the active mask, refuting the claim that `active(i)` is false
for every lane after `clear()`. -/
theorem C1_clear_counterexample :
    (warp_inst_t.mk_new 1).map (fun w =>
      (warp_inst_t.empty (warp_inst_t.clear (warp_inst_t.issue w 1 0 0)),
        warp_inst_t.active (warp_inst_t.clear (warp_inst_t.issue w 1 0 0)) 0)) =
      some (true, true) := by decide

/-- C1, amended: after `clear()`, `empty()` returns true, and `clear()` leaves
every lane's `active(i)` value unchanged (so lanes active before `clear` remain
active; the invariant "empty implies no lane active" is not restored by
`clear` after an `issue` with a non-zero mask). -/
theorem C1_clear_sets_empty_and_preserves_mask (s : warp_inst_t) :
    (warp_inst_t.clear s).m_empty = true ∧
      ∀ i : Fin 32,
        warp_inst_t.active (warp_inst_t.clear s) i = warp_inst_t.active s i :=
  ⟨rfl, fun _ => rfl⟩

/-- C2, counterexample: on a warp instruction of width 1, `set_addr(0,5)`
first (allocating the per-lane array), then `add_callback(0, f, i, t)` with
non-null arguments, leaves `isatomic()` false — the atomic mark is only
written in `add_callback`'s first-allocation branch. -/
theorem C2_add_callback_counterexample :
    (warp_inst_t.mk_new 1).map (fun w =>
      warp_inst_t.isatomic
        (warp_inst_t.add_callback (warp_inst_t.set_addr w 0 5) 0
          (some 1) (some 2) (some 3))) = some false := by decide

/-- C2, amended: `add_callback` marks the instruction atomic exactly when it
performs the first allocation of the per-lane array; if the array was already
allocated (e.g. by an earlier `set_addr`), `isatomic()` is left unchanged.
Equivalently, the resulting atomic flag is
`old isatomic || not (array already allocated)`. -/
theorem C2_add_callback_isatomic (s : warp_inst_t) (lane_id : Nat)
    (function inst thread : Option Nat) :
    (warp_inst_t.add_callback s lane_id function inst thread).m_isatomic =
      (s.m_isatomic || !s.m_per_scalar_thread_valid) := by
  cases h : s.m_per_scalar_thread_valid <;>
    simp [warp_inst_t.add_callback, h]

/-- A kernel state inside a block of dimensions (1,4,4) whose next unissued
thread is (0,0,2): threads remain in the block, but the source predicate
answers false. -/
def k_bug : kernel_info_t :=
  { m_valid := true, m_kernel_entry := none, m_grid_dim := ⟨1, 1, 1⟩,
    m_block_dim := ⟨1, 4, 4⟩, m_next_cta := ⟨0, 0, 0⟩, m_next_tid := ⟨0, 0, 2⟩ }

/-- C3: the source's `more_threads_in_cta()` compares `m_next_tid.z` against
`m_block_dim.x` in its third conjunct instead of comparing `m_next_tid.x`
against `m_block_dim.x`; at block dims (1,4,4) with next thread (0,0,2) the
code returns false while the intended predicate (x<bx ∧ y<by ∧ z<bz), which
the claim states, returns true. -/
theorem C3_more_threads_in_cta_bug :
    kernel_info_t.more_threads_in_cta k_bug = false ∧
      kernel_info_t.more_threads_in_cta_intended k_bug = true := by decide

/-- A kernel state whose flat thread index mathematically equals 2^32: block
dims (65536, 65536, 2), next thread (0,0,1). -/
def k_wide : kernel_info_t :=
  { m_valid := true, m_kernel_entry := none, m_grid_dim := ⟨1, 1, 1⟩,
    m_block_dim := ⟨65536, 65536, 2⟩, m_next_cta := ⟨0, 0, 0⟩,
    m_next_tid := ⟨0, 0, 1⟩ }

/-- C7, counterexample: with block dims (65536,65536,2) and next thread
(0,0,1), the mathematical linearization x + bx·y + bx·by·z equals 2^32, but
`get_next_thread_id()` computes in 32-bit unsigned arithmetic and returns 0. -/
theorem C7_thread_id_counterexample :
    kernel_info_t.get_next_thread_id k_wide = 0 ∧
      k_wide.m_next_tid.x + k_wide.m_block_dim.x * k_wide.m_next_tid.y +
          k_wide.m_block_dim.x * k_wide.m_block_dim.y * k_wide.m_next_tid.z =
        4294967296 ∧ (0 : Nat) ≠ 4294967296 := by decide

/-- C7, amended: `get_next_thread_id()` returns
(x + bx·y + bx·by·z) mod 2^32 — the block-dimension-stride linearization of
the 3D thread coordinate reduced by the 32-bit unsigned arithmetic it is
computed in; this equals the plain sum whenever that sum is below 2^32 (e.g.
block dims (4,4,1), coordinate (3,1,0) gives 7). -/
theorem C7_thread_id_linearizes_mod (k : kernel_info_t) :
    kernel_info_t.get_next_thread_id k =
      (k.m_next_tid.x + k.m_block_dim.x * k.m_next_tid.y +
        k.m_block_dim.x * k.m_block_dim.y * k.m_next_tid.z) % 2 ^ 32 := by
  have h1 : (k.m_next_tid.x + k.m_block_dim.x * k.m_next_tid.y % U32) % U32 =
      (k.m_next_tid.x + k.m_block_dim.x * k.m_next_tid.y) % U32 :=
    Nat.add_mod_mod ..
  have h2 : (k.m_block_dim.x * k.m_block_dim.y % U32) * k.m_next_tid.z % U32 =
      k.m_block_dim.x * k.m_block_dim.y * k.m_next_tid.z % U32 :=
    Nat.mod_mul_mod
  unfold kernel_info_t.get_next_thread_id
  rw [h1, h2, ← Nat.add_mod, U32_eq]

/-- C9: the `inst_t` default constructor's two `memset` calls pass
`sizeof(unsigned)` (one element's worth of bytes), so slot 0 of `out` and
slot 0 of `in` are zeroed while slots 1..3 of each are left unwritten. -/
theorem C9_inst_ctor_zeroes_only_first_slot :
    ∀ i : Fin 4,
      inst_t_new.out i = (if i.val = 0 then some 0 else none) ∧
        inst_t_new.in_regs i = (if i.val = 0 then some 0 else none) := by decide

/-- C10: `num_blocks()` and `threads_per_cta()` multiply their three axis
extents in 32-bit unsigned arithmetic before widening to `size_t`, so each
returns the product of its axes reduced modulo 2^32. -/
theorem C10_counts_are_mod_u32 (k : kernel_info_t) :
    kernel_info_t.num_blocks k =
      k.m_grid_dim.x * k.m_grid_dim.y * k.m_grid_dim.z % 2 ^ 32 ∧
      kernel_info_t.threads_per_cta k =
        k.m_block_dim.x * k.m_block_dim.y * k.m_block_dim.z % 2 ^ 32 := by
  refine ⟨?_, ?_⟩ <;>
    · simp only [kernel_info_t.num_blocks, kernel_info_t.threads_per_cta]
      rw [U32_eq, Nat.mod_mul_mod]

/-- Core of the set/get address round trip: modifying index `n` of a list of
length `W` and reading it back yields the stored address, and the length is
unchanged. -/
theorem set_get_core (l : List per_thread_info) (W n a : Nat)
    (hn : n < W) (hlen : l.length = W) :
    ((listModify l n (fun t => { t with memreqaddr := a })).get? n).map
        (fun t => t.memreqaddr) = some a ∧
      (listModify l n (fun t => { t with memreqaddr := a })).length = W := by
  have h1 : l.get? n = some (l.get ⟨n, hlen ▸ hn⟩) := List.get?_eq_get _
  rw [listModify_get?, h1]
  exact ⟨rfl, by rw [listModify_length, hlen]⟩

/-- C4: with `isatomic()` true and `empty()` false, `do_atomic()` performs
exactly one callback invocation per per-lane entry whose thread back-reference
is non-null, in array order, passing each its stored function, instruction and
thread; entries with a null thread are skipped, and the active mask plays no
role in the selection. -/
theorem C4_do_atomic_trace (s : warp_inst_t)
    (h1 : s.m_isatomic = true) (h2 : s.m_empty = false) :
    warp_inst_t.do_atomic s =
      some ((s.m_per_scalar_thread.filter (fun t => t.callback.thread.isSome)).map
        (fun t => (t.callback.function, t.callback.instruction, t.callback.thread))) ∧
      ∀ m : Fin 32 → Bool,
        warp_inst_t.do_atomic { s with warp_active_mask := m } =
          warp_inst_t.do_atomic s := by
  refine ⟨?_, fun m => rfl⟩
  simp [warp_inst_t.do_atomic, h1, h2, atomic_calls_eq]

/-- An atomic, non-empty warp instruction of width 2 with a registered
callback (non-null thread) on lane 0 and no registration on lane 1. -/
def w_atomic : warp_inst_t :=
  { m_warp_size := 2, m_empty := false, m_isatomic := true,
    m_warp_id := some 0, issue_cycle := some 0,
    warp_active_mask := fun _ => false,
    m_per_scalar_thread_valid := true,
    m_per_scalar_thread :=
      [{ callback := { function := some 7, instruction := some 8, thread := some 9 },
         memreqaddr := 0, cache_miss := false },
       per_thread_info_new] }

/-- C4 witness: on `w_atomic` the hypotheses hold and `do_atomic` invokes
exactly lane 0's callback. -/
theorem C4_do_atomic_trace_witness :
    w_atomic.m_isatomic = true ∧ w_atomic.m_empty = false ∧
      warp_inst_t.do_atomic w_atomic = some [(some 7, some 8, some 9)] ∧
      (warp_inst_t.do_atomic w_atomic =
        some ((w_atomic.m_per_scalar_thread.filter
            (fun t => t.callback.thread.isSome)).map
          (fun t => (t.callback.function, t.callback.instruction, t.callback.thread))) ∧
        ∀ m : Fin 32 → Bool,
          warp_inst_t.do_atomic { w_atomic with warp_active_mask := m } =
            warp_inst_t.do_atomic w_atomic) :=
  ⟨rfl, rfl, rfl, C4_do_atomic_trace w_atomic rfl rfl⟩

/-- C5: for a lane `n` below the warp size (on a state whose allocated
per-lane array, if any, has warp-size length — true of every reachable
state), `set_addr(n, a)` followed by `get_addr(n)` returns `a`, with no
condition on lane activity, and the per-lane array afterwards has exactly
warp-size entries (so the first `set_addr` allocates it at that size). -/
theorem C5_set_addr_get_addr (s : warp_inst_t) (n a : Nat)
    (hn : n < s.m_warp_size)
    (hw : s.m_per_scalar_thread_valid = true →
      s.m_per_scalar_thread.length = s.m_warp_size) :
    warp_inst_t.get_addr (warp_inst_t.set_addr s n a) n = some a ∧
      (warp_inst_t.set_addr s n a).m_per_scalar_thread.length = s.m_warp_size := by
  unfold warp_inst_t.set_addr warp_inst_t.get_addr
  cases hv : s.m_per_scalar_thread_valid
  · have hc := set_get_core
      (vecResize s.m_per_scalar_thread s.m_warp_size per_thread_info_new)
      s.m_warp_size n a hn
      (vecResize_length s.m_per_scalar_thread s.m_warp_size per_thread_info_new)
    simpa [hv] using hc
  · have hc := set_get_core s.m_per_scalar_thread s.m_warp_size n a hn (hw hv)
    simpa [hv] using hc

/-- A freshly constructed (never-issued) warp instruction of width 2: no
per-lane array allocated. -/
def w_fresh : warp_inst_t :=
  { m_warp_size := 2, m_empty := true, m_isatomic := false, m_warp_id := none,
    issue_cycle := none, warp_active_mask := fun _ => false,
    m_per_scalar_thread_valid := false, m_per_scalar_thread := [] }

/-- C5 witness: on the fresh width-2 instruction, lane 0 (inactive) round
trips address 42 and the first `set_addr` allocates a 2-entry array. -/
theorem C5_set_addr_get_addr_witness :
    (0 < w_fresh.m_warp_size ∧
      (w_fresh.m_per_scalar_thread_valid = true →
        w_fresh.m_per_scalar_thread.length = w_fresh.m_warp_size)) ∧
      (warp_inst_t.get_addr (warp_inst_t.set_addr w_fresh 0 42) 0 = some 42 ∧
        (warp_inst_t.set_addr w_fresh 0 42).m_per_scalar_thread.length =
          w_fresh.m_warp_size) :=
  ⟨⟨by decide, by decide⟩,
    C5_set_addr_get_addr w_fresh 0 42 (by decide) (by decide)⟩

/-- C6: `has_callback(n)` returns true exactly when lane `n` is active, the
per-lane array is allocated, and the entry stored for lane `n` holds a
non-null callback function; in particular short-circuiting makes it return
false (without touching the array) whenever the array was never allocated. -/
theorem C6_has_callback_characterization (s : warp_inst_t) (n : Fin 32) :
    warp_inst_t.has_callback s n = true ↔
      warp_inst_t.active s n = true ∧ s.m_per_scalar_thread_valid = true ∧
        ∃ t, s.m_per_scalar_thread.get? n.val = some t ∧
          t.callback.function ≠ none := by
  unfold warp_inst_t.has_callback warp_inst_t.active
  cases hg : s.m_per_scalar_thread.get? n.val <;>
    simp [hg, Option.isSome_iff_ne_none, and_assoc]

/-- C8: `operator==` on memory spaces holds exactly when tag and bank both
match; `operator<` is the strict lexicographic order on (tag enum value,
bank); consequently for two instances built from the same tag with
`set_bank b1` and `set_bank b2`, equality coincides with `b1 = b2` and
`operator<` with `b1 < b2` (equal banks compare equal, the smaller bank sorts
first). -/
theorem C8_memory_space_eq_and_order (a b : memory_space_t)
    (t : _memory_space_t) (b1 b2 : Nat) :
    (memory_space_t.beq_op a b = true ↔
      a.m_type = b.m_type ∧ a.m_bank = b.m_bank) ∧
    (memory_space_t.lt_op a b = true ↔
      space_val a.m_type < space_val b.m_type ∨
        (a.m_type = b.m_type ∧ a.m_bank < b.m_bank)) ∧
    (memory_space_t.beq_op ((memory_space_t.mk_from t).set_bank b1)
        ((memory_space_t.mk_from t).set_bank b2) = (b1 == b2)) ∧
    (memory_space_t.lt_op ((memory_space_t.mk_from t).set_bank b1)
        ((memory_space_t.mk_from t).set_bank b2) = decide (b1 < b2)) := by
  refine ⟨?_, ?_, ?_, ?_⟩
  · simp only [memory_space_t.beq_op, Bool.and_eq_true, beq_iff_eq]
    constructor
    · rintro ⟨hb, ht⟩
      exact ⟨space_val_inj ht, hb⟩
    · rintro ⟨ht, hb⟩
      exact ⟨hb, by rw [ht]⟩
  · unfold memory_space_t.lt_op
    rcases Nat.lt_trichotomy (space_val a.m_type) (space_val b.m_type)
      with h | h | h
    · simp [h]
    · have hty : a.m_type = b.m_type := space_val_inj h
      have h1 : ¬ space_val a.m_type < space_val b.m_type := by omega
      have h2 : ¬ space_val a.m_type > space_val b.m_type := by omega
      rw [if_neg h1, if_neg h2]
      by_cases hb : a.m_bank < b.m_bank
      · simp [hb, hty]
      · simp [hb, h1]
    · have h1 : ¬ space_val a.m_type < space_val b.m_type := Nat.lt_asymm h
      rw [if_neg h1, if_pos h]
      simp only [Bool.false_eq_true, false_iff]
      rintro (hc | ⟨hty, _⟩)
      · exact h1 hc
      · exact absurd (congrArg space_val hty) (Nat.ne_of_gt h)
  · simp [memory_space_t.beq_op, memory_space_t.set_bank, memory_space_t.mk_from]
  · by_cases hb : b1 < b2 <;>
      simp [memory_space_t.lt_op, memory_space_t.set_bank,
        memory_space_t.mk_from, hb]
